import Mathlib

/-!
Verification of the `stopwaiter` package (util/stopwaiter/stopwaiter.go): a
structured-concurrency lifecycle controller and its task combinators.

The embedding models a Go `context.Context` by its cancelled flag, channels by
the events a blocked `select` can observe, and each combinator's goroutine body
as a step function driven by a trace of such observations.  All operations of
`StopWaiterSafe` are sequentialised: each Go method that runs under the mutex
becomes a pure function on the controller state, and the lazily spawned
wait-channel watcher becomes an explicit guarded step (`watcherFire`).
-/

namespace Stopwaiter

/-- Removes the first occurrence of the character c from a list of characters,
modelling Go strings.Replace(s, sub, repl, 1) for a one-character pattern and
empty replacement. -/
def replaceFirstChar (c : Char) : List Char → List Char
  | [] => []
  | x :: xs => if x = c then xs else x :: replaceFirstChar c xs

/-- Model of getParentName: the argument stands for reflect.TypeOf(parent).String();
the single replacement removes the asterisk of a pointer type. -/
def getParentName (typeName : String) : String :=
  String.mk (replaceFirstChar '*' typeName.data)

/-- State of a StopWaiterSafe.  The derived context ctx and the parent context
are modelled by their cancelled flags; waitChan by whether it has been created
(waitChanMade) and whether the watcher has closed it (waitChanClosed); the
sync.WaitGroup by the count of in-flight supervised tasks (taskCounter). -/
structure StopWaiterSafe where
  started : Bool
  stopped : Bool
  ctxCancelled : Bool
  parentCancelled : Bool
  name : String
  waitChanMade : Bool
  waitChanClosed : Bool
  taskCounter : Nat
  deriving Repr, DecidableEq

/-- The zero value of StopWaiterSafe, as Go default-initialises the struct. -/
def initState : StopWaiterSafe :=
  { started := false, stopped := false, ctxCancelled := false, parentCancelled := false,
    name := "", waitChanMade := false, waitChanClosed := false, taskCounter := 0 }

/-- A controller right after a plain Start from the zero state, with the name
field left empty; used to instantiate theorems at concrete inputs. -/
def startedState : StopWaiterSafe :=
  { initState with started := true }

/-- A started, stopped controller whose scope is cancelled, whose wait channel
exists and whose task counter is zero: the watcher's close step is enabled. -/
def drainReadyState : StopWaiterSafe :=
  { initState with started := true, stopped := true, ctxCancelled := true, waitChanMade := true }

/-- The state drainReadyState reaches when the watcher closes the wait channel. -/
def drainDoneState : StopWaiterSafe :=
  { drainReadyState with waitChanClosed := true }

/-- Model of getContext (and GetContextSafe): the derived scope, given by its
cancelled flag, when started; the "not started" error otherwise. -/
def getContext (s : StopWaiterSafe) : Except String Bool :=
  if s.started then Except.ok s.ctxCancelled else Except.error "not started"

/-- Model of Start: start-after-start errors; otherwise the parent scope is
recorded, a cancellable scope is derived from it (so it begins cancelled iff
the parent is), the diagnostic name is computed from the owner's type name,
and, when stopped was already set, stopFunc is invoked at once. -/
def Start (s : StopWaiterSafe) (parentCancelled : Bool) (parentTypeName : String) :
    Except String StopWaiterSafe :=
  if s.started then Except.error "start after start"
  else
    let s1 := { s with
      started := true
      name := getParentName parentTypeName
      parentCancelled := parentCancelled
      ctxCancelled := parentCancelled }
    Except.ok (if s1.stopped then { s1 with ctxCancelled := true } else s1)

/-- Start applied to a mutable receiver, as Go callers see it: on an error the
receiver is left unchanged and the error message is reported. -/
def runStart (s : StopWaiterSafe) (pc : Bool) (nm : String) :
    StopWaiterSafe × Option String :=
  match Start s pc nm with
  | Except.ok s' => (s', none)
  | Except.error e => (s, some e)

/-- Model of StopOnly: invokes stopFunc when started and not yet stopped;
always sets stopped. -/
def StopOnly (s : StopWaiterSafe) : StopWaiterSafe :=
  let s1 := if s.started && !s.stopped then { s with ctxCancelled := true } else s
  { s1 with stopped := true }

/-- Model of LaunchThreadSafe: GetContextSafe first (errors when not started),
then the Stopped check silently skips the launch, otherwise wg.Add(1) and the
goroutine is started with the controller scope.  The Option Bool is none when
no task was launched, and some c when a task was launched with a scope whose
cancelled flag is c. -/
def LaunchThreadSafe (s : StopWaiterSafe) : Except String (StopWaiterSafe × Option Bool) :=
  match getContext s with
  | Except.error e => Except.error e
  | Except.ok ctx =>
    if s.stopped then Except.ok (s, none)
    else Except.ok ({ s with taskCounter := s.taskCounter + 1 }, some ctx)

/-- Model of wg.Done at the return of a supervised task's function: the task
counter is decremented. -/
def taskFinish (s : StopWaiterSafe) : StopWaiterSafe :=
  { s with taskCounter := s.taskCounter - 1 }

/-- Model of GetWaitChannel: when the wait channel does not exist yet, getContext
is consulted (so the call errors before Start) and the channel plus its watcher
goroutine are created; an existing channel is returned as is. -/
def GetWaitChannel (s : StopWaiterSafe) : Except String StopWaiterSafe :=
  if s.waitChanMade then Except.ok s
  else if s.started then Except.ok { s with waitChanMade := true }
  else Except.error "not started"

/-- The watcher goroutine spawned by GetWaitChannel first blocks on ctx.Done(),
then on wg.Wait(), then closes the wait channel.  Its close step can therefore
fire exactly when the channel exists and is still open, the scope is cancelled,
and the task counter is zero; firing closes the channel. -/
def watcherFire (s : StopWaiterSafe) : Option StopWaiterSafe :=
  if s.waitChanMade && !s.waitChanClosed && s.ctxCancelled && s.taskCounter == 0
  then some { s with waitChanClosed := true } else none

/-- How a call of stopAndWaitImpl returns: immediately (never started), or by
blocking on the wait channel until the watcher closes it. -/
inductive StopOutcome where
  | immediate
  | waits
  deriving Repr, DecidableEq

/-- Model of stopAndWaitImpl up to its blocking point: StopOnly first, an
immediate nil return when never started, otherwise the wait channel is obtained
and the call blocks on it (outcome waits) until the watcher closes it. -/
def stopAndWaitImpl (s : StopWaiterSafe) : Except String (StopWaiterSafe × StopOutcome) :=
  let s1 := StopOnly s
  if !s1.started then Except.ok (s1, StopOutcome.immediate)
  else
    match GetWaitChannel s1 with
    | Except.error e => Except.error e
    | Except.ok s2 => Except.ok (s2, StopOutcome.waits)

/-- Timing of the blocking phase of stopAndWaitImpl: a single timer fires at
warningTimeout, the wait channel closes at drainAt.  When the timer fires first,
one diagnostic warning (a stack-trace snapshot plus a log record) is emitted and
the call falls through to a bare receive on the wait channel; in either case the
call returns when the wait channel closes.  Result: (number of warning events
emitted, return time).  The equal-instant case is a select race, modelled here
as the wait-channel branch. -/
def stopAndWaitTimed (warningTimeout drainAt : Nat) : Nat × Nat :=
  if warningTimeout < drainAt then (1, drainAt) else (0, drainAt)

/-- The event that wakes the select of CallIterativelyWith when the interval
returned by foo is positive: scope cancellation, timer expiry, or a receive
val, ok = <-triggerChan (ok is false when the channel is closed, in which case
Go delivers the element type's zero value). -/
inductive IterEvent (T : Type) where
  | ctxDone
  | timerFired
  | triggerRecv (v : T) (ok : Bool)
  deriving Repr, DecidableEq

/-- The loop body of CallIterativelyWith, driven by a trace: each trace element
supplies what one iteration observes (whether ctx.Err() is non-nil right after
foo returns, and which select branch fires when a select happens).  foo's
interval depends on the value it is invoked with.  Result: the list of values
foo was invoked with, in order, and whether the loop returned (false means the
trace was exhausted with the loop still running). -/
def runIter {T : Type} (foo : T → Nat) (dflt : T) :
    T → List (Bool × IterEvent T) → List T × Bool
  | _, [] => ([], false)
  | val, (ctxErr, ev) :: rest =>
    if ctxErr then ([val], true)
    else if foo val = 0 then
      let r := runIter foo dflt dflt rest
      (val :: r.1, r.2)
    else
      match ev with
      | IterEvent.ctxDone => ([val], true)
      | IterEvent.timerFired =>
        let r := runIter foo dflt dflt rest
        (val :: r.1, r.2)
      | IterEvent.triggerRecv v ok =>
        if ok then
          let r := runIter foo dflt v rest
          (val :: r.1, r.2)
        else ([val], true)

/-- Select event for CallIterativelySafe: scope cancellation or timer expiry. -/
inductive SimpleEvent where
  | ctxDone
  | timerFired
  deriving Repr, DecidableEq

/-- The loop body of CallIterativelySafe, driven by a trace; intervals n is the
value foo returns at its n-th invocation.  Result: the number of invocations of
foo, and whether the loop returned. -/
def runIterSimple (intervals : Nat → Nat) : Nat → List (Bool × SimpleEvent) → Nat × Bool
  | _, [] => (0, false)
  | n, (ctxErr, ev) :: rest =>
    if ctxErr then (1, true)
    else if intervals n = 0 then
      let r := runIterSimple intervals (n + 1) rest
      (1 + r.1, r.2)
    else
      match ev with
      | SimpleEvent.ctxDone => (1, true)
      | SimpleEvent.timerFired =>
        let r := runIterSimple intervals (n + 1) rest
        (1 + r.1, r.2)

/-- The event that wakes the select of CallWhenTriggeredWith: scope cancellation
or the receive case val := <-triggerChan.  The source does not inspect the ok
flag of this receive; a closed channel is the case ok = false with v the element
type's zero value, which Go's receive delivers without blocking. -/
inductive TrigEvent (T : Type) where
  | ctxDone
  | recv (v : T) (ok : Bool)
  deriving Repr, DecidableEq

/-- The loop body of CallWhenTriggeredWith, driven by a trace.  Each iteration
first checks ctx.Err(), then selects; on a receive it invokes foo with the
received value and loops.  Result: the values foo was invoked with, and whether
the loop returned. -/
def runWhenTrig {T : Type} : List (Bool × TrigEvent T) → List T × Bool
  | [] => ([], false)
  | (ctxErr, ev) :: rest =>
    if ctxErr then ([], true)
    else
      match ev with
      | TrigEvent.ctxDone => ([], true)
      | TrigEvent.recv v _ =>
        let r := runWhenTrig rest
        (v :: r.1, r.2)

/-- One input arrival in ChanRateLimiter's loop, at instant now with rate the
value maxRateCallback() would return at this call: when now is strictly after
nextAllowedTriggerTime (Go time.Time.After) the value is forwarded on the output
channel and nextAllowedTriggerTime becomes now + rate; otherwise the value is
dropped and nextAllowedTriggerTime is unchanged.  Result: (whether the arriving
value was forwarded, the new nextAllowedTriggerTime). -/
def chanRateLimiterStep (rate nextAllowed now : Nat) : Bool × Nat :=
  if nextAllowed < now then (true, now + rate) else (false, nextAllowed)

/-- Outcome of setting up ChanRateLimiter: the controller state afterwards, the
launch outcome (as in LaunchThreadSafe), whether the output channel was closed
during setup, and the error returned to the caller. -/
structure RateLimiterInit where
  state : StopWaiterSafe
  launched : Option Bool
  outChanClosed : Bool
  err : Option String
  deriving Repr, DecidableEq

/-- Model of ChanRateLimiter's setup: the output channel is created and the
supervised task launched via LaunchThreadSafe; when that launch errors, the
output channel is closed immediately and the error is returned. -/
def chanRateLimiterInit (s : StopWaiterSafe) : RateLimiterInit :=
  match LaunchThreadSafe s with
  | Except.error e => { state := s, launched := none, outChanClosed := true, err := some e }
  | Except.ok (s', l) => { state := s', launched := l, outChanClosed := false, err := none }

/-- Result of LaunchPromiseThread: the controller state afterwards, every
resolution (Produce or ProduceError) the combinator performed on the promise,
in order, and whether a supervised task was launched. -/
structure PromiseRun (V : Type) where
  state : StopWaiterSafe
  resolutions : List (Except String V)
  taskLaunched : Bool
  deriving Repr

/-- Model of LaunchPromiseThread, with fooResult the outcome foo would return:
a not-started launcher yields a promise resolved at once to the "not started"
error and no task; a stopped one, the "stopped" error and no task; otherwise a
supervised task is launched that runs foo on the inner derived scope and
resolves the promise exactly once with foo's outcome before cancelling the
inner scope.  A launch error is turned into a single error resolution, and a
silently skipped launch (nil error, no goroutine) leaves the promise
unresolved, so no path resolves it twice. -/
def LaunchPromiseThread {V : Type} (s : StopWaiterSafe) (fooResult : Except String V) :
    PromiseRun V :=
  match getContext s with
  | Except.error e => { state := s, resolutions := [Except.error e], taskLaunched := false }
  | Except.ok _ =>
    if s.stopped then
      { state := s, resolutions := [Except.error "stopped"], taskLaunched := false }
    else
      match LaunchThreadSafe s with
      | Except.error e => { state := s, resolutions := [Except.error e], taskLaunched := false }
      | Except.ok (s', none) => { state := s', resolutions := [], taskLaunched := false }
      | Except.ok (s', some _) => { state := s', resolutions := [fooResult], taskLaunched := true }

/-- A successful Start leaves the controller started. -/
theorem Start_ok_started {s s' : StopWaiterSafe} {pc : Bool} {nm : String}
    (h : Start s pc nm = Except.ok s') : s'.started = true := by
  unfold Start at h
  by_cases hs : s.started
  · simp [hs] at h
  · simp [hs] at h
    split at h <;> simp [← h]

/-- StopOnly does not change the started flag. -/
theorem StopOnly_started (s : StopWaiterSafe) : (StopOnly s).started = s.started := by
  unfold StopOnly; split <;> rfl

/-- StopOnly does not change the wait-channel flag. -/
theorem StopOnly_waitChanMade (s : StopWaiterSafe) :
    (StopOnly s).waitChanMade = s.waitChanMade := by
  unfold StopOnly; split <;> rfl

/-- Every driven iteration of the CallIterativelyWith body invokes foo first,
with the entry value. -/
theorem runIter_cons_head {T : Type} (foo : T → Nat) (dflt val : T)
    (e : Bool × IterEvent T) (tr : List (Bool × IterEvent T)) :
    ((runIter foo dflt val (e :: tr)).1).head? = some val := by
  obtain ⟨ctxErr, ev⟩ := e
  cases ctxErr
  · by_cases h0 : foo val = 0
    · cases ev <;> simp [runIter, h0]
    · cases ev with
      | ctxDone => simp [runIter, h0]
      | timerFired => simp [runIter, h0]
      | triggerRecv v ok => cases ok <;> simp [runIter, h0]
  · cases ev <;> simp [runIter]

/-- Claim C1: if StopOnly (or StopAndWait) is called before Start, a subsequent
Start succeeds and the scope it creates is already cancelled, so every task
launched after that Start observes cancellation on its first check of the
scope (getContext hands out a cancelled scope). -/
theorem c1_stop_before_start_cancels (s : StopWaiterSafe) (pc : Bool) (nm : String)
    (h : s.started = false) :
    ∃ s', Start (StopOnly s) pc nm = Except.ok s'
      ∧ s'.ctxCancelled = true ∧ getContext s' = Except.ok true := by
  refine ⟨{ s with
      started := true
      stopped := true
      name := getParentName nm
      parentCancelled := pc
      ctxCancelled := true }, ?_, rfl, rfl⟩
  simp [StopOnly, Start, h]

/-- Concrete instance of c1_stop_before_start_cancels at the zero state. -/
theorem c1_witness :
    ∃ s', Start (StopOnly initState) true "*RollupWatcher" = Except.ok s'
      ∧ s'.ctxCancelled = true ∧ getContext s' = Except.ok true :=
  c1_stop_before_start_cancels initState true "*RollupWatcher" rfl

/-- Claim C2: StopAndWait on a never-started controller returns immediately
without error; on a started controller it blocks on the wait channel (outcome
waits, with the channel in existence); and the watcher can close that channel
(fire the drain signal) only from a state in which the scope is cancelled and
the supervised-task counter is zero. -/
theorem c2_stop_and_wait_drain (s : StopWaiterSafe) :
    (s.started = false →
      stopAndWaitImpl s = Except.ok (StopOnly s, StopOutcome.immediate))
    ∧ (s.started = true →
      ∃ s', stopAndWaitImpl s = Except.ok (s', StopOutcome.waits) ∧ s'.waitChanMade = true)
    ∧ (∀ t t' : StopWaiterSafe, watcherFire t = some t' →
      t.ctxCancelled = true ∧ t.taskCounter = 0 ∧ t'.waitChanClosed = true) := by
  refine ⟨?_, ?_, ?_⟩
  · intro h
    simp [stopAndWaitImpl, StopOnly_started, h]
  · intro h
    have hs1 : (StopOnly s).started = true := by rw [StopOnly_started]; exact h
    by_cases hw : (StopOnly s).waitChanMade
    · exact ⟨StopOnly s, by simp [stopAndWaitImpl, GetWaitChannel, hs1, hw], hw⟩
    · refine ⟨{ StopOnly s with waitChanMade := true }, ?_, rfl⟩
      simp [stopAndWaitImpl, GetWaitChannel, hs1, hw]
  · intro t t' hf
    unfold watcherFire at hf
    split at hf
    · next hcond =>
      simp only [Bool.and_eq_true, Bool.not_eq_true', beq_iff_eq] at hcond
      cases hf
      exact ⟨hcond.1.2, hcond.2, rfl⟩
    · exact absurd hf (by simp)

/-- Concrete instances of c2_stop_and_wait_drain: the zero state for the
immediate return, a started state for the blocking return, and a cancelled
drained state for the watcher step. -/
theorem c2_witness :
    stopAndWaitImpl initState = Except.ok (StopOnly initState, StopOutcome.immediate)
    ∧ (∃ s', stopAndWaitImpl startedState
        = Except.ok (s', StopOutcome.waits) ∧ s'.waitChanMade = true)
    ∧ (drainReadyState.ctxCancelled = true ∧ drainReadyState.taskCounter = 0
        ∧ drainDoneState.waitChanClosed = true) :=
  ⟨(c2_stop_and_wait_drain initState).1 rfl,
   (c2_stop_and_wait_drain startedState).2.1 rfl,
   (c2_stop_and_wait_drain initState).2.2 drainReadyState drainDoneState (by decide)⟩

/-- Claim C3: LaunchThread errors with "not started" before Start; after stop
has been requested (on a started controller) it returns success with no task
launched; otherwise it increments the task counter, hands the controller's
scope to the function, and the wg.Done on return brings the counter back. -/
theorem c3_launch_thread (s : StopWaiterSafe) :
    (s.started = false → LaunchThreadSafe s = Except.error "not started")
    ∧ (s.started = true → s.stopped = true → LaunchThreadSafe s = Except.ok (s, none))
    ∧ (s.started = true → s.stopped = false →
        LaunchThreadSafe s =
          Except.ok ({ s with taskCounter := s.taskCounter + 1 }, some s.ctxCancelled)
        ∧ (taskFinish { s with taskCounter := s.taskCounter + 1 }).taskCounter
            = s.taskCounter) := by
  refine ⟨?_, ?_, ?_⟩
  · intro h; simp [LaunchThreadSafe, getContext, h]
  · intro h1 h2; simp [LaunchThreadSafe, getContext, h1, h2]
  · intro h1 h2
    exact ⟨by simp [LaunchThreadSafe, getContext, h1, h2], by simp [taskFinish]⟩

/-- Concrete instances of c3_launch_thread in its three regimes. -/
theorem c3_witness :
    LaunchThreadSafe initState = Except.error "not started"
    ∧ LaunchThreadSafe { initState with started := true, stopped := true }
        = Except.ok ({ initState with started := true, stopped := true }, none)
    ∧ (LaunchThreadSafe startedState
        = Except.ok ({ startedState with taskCounter := startedState.taskCounter + 1 },
            some startedState.ctxCancelled)
      ∧ (taskFinish
            { startedState with taskCounter := startedState.taskCounter + 1 }).taskCounter
          = startedState.taskCounter) :=
  ⟨(c3_launch_thread initState).1 rfl,
   (c3_launch_thread { initState with started := true, stopped := true }).2.1 rfl rfl,
   (c3_launch_thread startedState).2.2 rfl rfl⟩

/-- Claim C4: a second Start on a controller whose first Start succeeded fails
with the "start after start" error and leaves the state exactly as the first
Start set it. -/
theorem c4_start_twice (s0 s1 : StopWaiterSafe) (pc pc' : Bool) (nm nm' : String)
    (h : Start s0 pc nm = Except.ok s1) :
    runStart s1 pc' nm' = (s1, some "start after start") := by
  have hs : s1.started = true := Start_ok_started h
  simp [runStart, Start, hs]

/-- Concrete instance of c4_start_twice: a first Start from the zero state,
then a second Start. -/
theorem c4_witness :
    runStart { initState with started := true, name := "T" } false "U" =
      ({ initState with started := true, name := "T" }, some "start after start") :=
  c4_start_twice initState { initState with started := true, name := "T" }
    false false "*T" "U" rfl

/-- Claim C5: in CallIterativelyWith, when foo returns a positive delay, the
select waits on three events: scope cancellation exits the loop; timer expiry
makes the next invocation of foo carry the zero value; a receive on the trigger
channel pre-empts the timer and makes the next invocation carry exactly the
received value (the head? conjuncts show the next driven iteration invokes foo
with the carried value). -/
theorem c5_iter_with_select (T : Type) (foo : T → Nat) (dflt val v : T)
    (tr : List (Bool × IterEvent T)) (e : Bool × IterEvent T) (h : 0 < foo val) :
    runIter foo dflt val ((false, IterEvent.ctxDone) :: tr) = ([val], true)
    ∧ runIter foo dflt val ((false, IterEvent.timerFired) :: tr)
        = (val :: (runIter foo dflt dflt tr).1, (runIter foo dflt dflt tr).2)
    ∧ runIter foo dflt val ((false, IterEvent.triggerRecv v true) :: tr)
        = (val :: (runIter foo dflt v tr).1, (runIter foo dflt v tr).2)
    ∧ ((runIter foo dflt v (e :: tr)).1).head? = some v
    ∧ ((runIter foo dflt dflt (e :: tr)).1).head? = some dflt := by
  have h0 : ¬foo val = 0 := Nat.pos_iff_ne_zero.mp h
  exact ⟨by simp [runIter, h0], by simp [runIter, h0], by simp [runIter, h0],
    runIter_cons_head foo dflt v e tr, runIter_cons_head foo dflt dflt e tr⟩

/-- Concrete instance of c5_iter_with_select with a one-tick interval. -/
theorem c5_witness :
    runIter (fun _ : Nat => 1) 0 5 [((false : Bool), IterEvent.ctxDone)] = ([5], true)
    ∧ runIter (fun _ : Nat => 1) 0 5 [((false : Bool), IterEvent.timerFired)] = ([5], false)
    ∧ runIter (fun _ : Nat => 1) 0 5 [((false : Bool), IterEvent.triggerRecv 7 true)]
        = ([5], false)
    ∧ ((runIter (fun _ : Nat => 1) 0 7 [((true : Bool), IterEvent.ctxDone)]).1).head? = some 7
    ∧ ((runIter (fun _ : Nat => 1) 0 0 [((true : Bool), IterEvent.ctxDone)]).1).head?
        = some 0 :=
  c5_iter_with_select Nat (fun _ => 1) 0 5 7 [] ((true : Bool), IterEvent.ctxDone) (by decide)

/-- Claim C6 counterexample: in CallWhenTriggeredWith the ok flag of the receive
is never inspected, so when the trigger channel is closed while being waited on
(the receive delivers the zero value with ok = false) the task does not exit
without invoking foo again: foo is invoked with the zero value and the loop
keeps running. -/
theorem c6_counterexample :
    ¬ ((runWhenTrig [((false : Bool), TrigEvent.recv (0 : Nat) false)]).1 = []
        ∧ (runWhenTrig [((false : Bool), TrigEvent.recv (0 : Nat) false)]).2 = true) := by
  decide

/-- Claim C6 amended: when the trigger channel is closed while being waited on,
CallIterativelyWith exits normally without invoking foo again and without an
error; CallWhenTriggeredWith instead invokes foo with the delivered zero value
and continues looping. -/
theorem c6_trigger_closed (T : Type) (foo : T → Nat) (dflt val : T)
    (tr : List (Bool × IterEvent T)) (tr2 : List (Bool × TrigEvent T)) (h : 0 < foo val) :
    runIter foo dflt val ((false, IterEvent.triggerRecv dflt false) :: tr) = ([val], true)
    ∧ runWhenTrig ((false, TrigEvent.recv dflt false) :: tr2)
        = (dflt :: (runWhenTrig tr2).1, (runWhenTrig tr2).2) := by
  have h0 : ¬foo val = 0 := Nat.pos_iff_ne_zero.mp h
  exact ⟨by simp [runIter, h0], by simp [runWhenTrig]⟩

/-- Concrete instance of c6_trigger_closed over Nat values. -/
theorem c6_witness :
    runIter (fun _ : Nat => 1) 0 5 [((false : Bool), IterEvent.triggerRecv 0 false)]
        = ([5], true)
    ∧ runWhenTrig [((false : Bool), TrigEvent.recv (0 : Nat) false)] = ([0], false) :=
  c6_trigger_closed Nat (fun _ => 1) 0 5 [] [] (by decide)

/-- Claim C7: ChanRateLimiter's task forwards an arriving value and moves
nextAllowed to now plus the rate exactly when the value arrives strictly after
nextAllowed; a value arriving at or before nextAllowed is dropped with
nextAllowed unchanged; and when the supervised launch fails (the controller was
never started) the output channel is closed immediately and the launch error is
returned. -/
theorem c7_rate_limiter (rate nextAllowed now : Nat) (s : StopWaiterSafe) :
    (nextAllowed < now → chanRateLimiterStep rate nextAllowed now = (true, now + rate))
    ∧ (now ≤ nextAllowed → chanRateLimiterStep rate nextAllowed now = (false, nextAllowed))
    ∧ (s.started = false →
        chanRateLimiterInit s =
          { state := s, launched := none, outChanClosed := true, err := some "not started" }) := by
  refine ⟨?_, ?_, ?_⟩
  · intro h; simp [chanRateLimiterStep, h]
  · intro h; simp [chanRateLimiterStep, Nat.not_lt.mpr h]
  · intro h; simp [chanRateLimiterInit, LaunchThreadSafe, getContext, h]

/-- Concrete instances of c7_rate_limiter: a late arrival, an early arrival and
a failed launch. -/
theorem c7_witness :
    chanRateLimiterStep 10 3 5 = (true, 15)
    ∧ chanRateLimiterStep 10 5 5 = (false, 5)
    ∧ chanRateLimiterInit initState =
        { state := initState, launched := none, outChanClosed := true,
          err := some "not started" } :=
  ⟨(c7_rate_limiter 10 3 5 initState).1 (by decide),
   (c7_rate_limiter 10 5 5 initState).2.1 (by decide),
   (c7_rate_limiter 10 3 5 initState).2.2 rfl⟩

/-- Claim C8: LaunchPromiseThread on a not-started launcher returns a promise
already resolved to the "not started" error without launching a task; on a
stopped launcher, already resolved to the "stopped" error without launching a
task; and on every path the combinator's own logic resolves the promise at most
once. -/
theorem c8_promise_thread (V : Type) (s : StopWaiterSafe) (r : Except String V) :
    (s.started = false →
      (LaunchPromiseThread s r).resolutions = [Except.error "not started"]
      ∧ (LaunchPromiseThread s r).taskLaunched = false)
    ∧ (s.started = true → s.stopped = true →
      (LaunchPromiseThread s r).resolutions = [Except.error "stopped"]
      ∧ (LaunchPromiseThread s r).taskLaunched = false)
    ∧ (LaunchPromiseThread s r).resolutions.length ≤ 1 := by
  refine ⟨?_, ?_, ?_⟩
  · intro h
    simp [LaunchPromiseThread, getContext, h]
  · intro h1 h2
    simp [LaunchPromiseThread, getContext, h1, h2]
  · by_cases h1 : s.started
    · by_cases h2 : s.stopped
      · simp [LaunchPromiseThread, getContext, h1, h2]
      · simp [LaunchPromiseThread, LaunchThreadSafe, getContext, h1, h2]
    · simp [LaunchPromiseThread, getContext, h1]

/-- Concrete instances of c8_promise_thread on a not-started and on a stopped
controller, with Nat-valued promises. -/
theorem c8_witness :
    ((LaunchPromiseThread initState (Except.ok (7 : Nat))).resolutions
        = [Except.error "not started"]
      ∧ (LaunchPromiseThread initState (Except.ok (7 : Nat))).taskLaunched = false)
    ∧ ((LaunchPromiseThread { initState with started := true, stopped := true }
          (Except.ok (7 : Nat))).resolutions = [Except.error "stopped"]
      ∧ (LaunchPromiseThread { initState with started := true, stopped := true }
          (Except.ok (7 : Nat))).taskLaunched = false) :=
  ⟨(c8_promise_thread Nat initState (Except.ok 7)).1 rfl,
   (c8_promise_thread Nat { initState with started := true, stopped := true }
     (Except.ok 7)).2.1 rfl rfl⟩

/-- Claim C9 counterexample: with a warning timeout of 1 and the drain signal
firing at 10, a recurring warning repeated until the blocking task exits would
mean at least two warning events; stopAndWaitImpl arms a single timer and emits
exactly one warning, then waits silently. -/
theorem c9_counterexample :
    (stopAndWaitTimed 1 10).1 = 1 ∧ ¬ 2 ≤ (stopAndWaitTimed 1 10).1 := by
  decide

/-- Claim C9 amended: while StopAndWait is blocked on a shutdown that exceeds
the warning timeout it emits exactly one diagnostic warning (not a recurring
one), never more than one on any timing, and it still returns only once the
drain signal fires. -/
theorem c9_single_warning (w d : Nat) (h : w < d) :
    (stopAndWaitTimed w d).1 = 1 ∧ (stopAndWaitTimed w d).2 = d
    ∧ ∀ w' d' : Nat, (stopAndWaitTimed w' d').1 ≤ 1 := by
  refine ⟨by simp [stopAndWaitTimed, h], by unfold stopAndWaitTimed; split <;> rfl, ?_⟩
  intro w' d'
  unfold stopAndWaitTimed
  split <;> simp

/-- Concrete instance of c9_single_warning at timeout 1, drain at 10. -/
theorem c9_witness :
    (stopAndWaitTimed 1 10).1 = 1 ∧ (stopAndWaitTimed 1 10).2 = 10
    ∧ ∀ w' d' : Nat, (stopAndWaitTimed w' d').1 ≤ 1 :=
  c9_single_warning 1 10 (by decide)

/-- Claim C10: whenever the iterative-task body of CallIteratively or
CallIterativelyWith runs an iteration, foo is invoked before any cancellation
check: the first driven iteration always records an invocation (head? conjunct
and the invocation-count lower bound), and even when ctx.Err() is already
non-nil right after foo returns, foo has run exactly once before the loop
exits. -/
theorem c10_fn_runs_before_cancel_check (T : Type) (foo : T → Nat) (dflt val : T)
    (e : Bool × IterEvent T) (tr : List (Bool × IterEvent T))
    (intervals : Nat → Nat) (n : Nat) (e2 : Bool × SimpleEvent)
    (tr2 : List (Bool × SimpleEvent)) :
    ((runIter foo dflt val (e :: tr)).1).head? = some val
    ∧ (∀ ev : IterEvent T, runIter foo dflt val ((true, ev) :: tr) = ([val], true))
    ∧ 1 ≤ (runIterSimple intervals n (e2 :: tr2)).1
    ∧ (∀ ev2 : SimpleEvent, runIterSimple intervals n ((true, ev2) :: tr2) = (1, true)) := by
  refine ⟨runIter_cons_head foo dflt val e tr, ?_, ?_, ?_⟩
  · intro ev; simp [runIter]
  · obtain ⟨ctxErr, ev2⟩ := e2
    cases ctxErr
    · by_cases h0 : intervals n = 0
      · cases ev2 <;> simp [runIterSimple, h0]
      · cases ev2 <;> simp [runIterSimple, h0]
    · cases ev2 <;> simp [runIterSimple]
  · intro ev2; simp [runIterSimple]

end Stopwaiter
